import Mathlib

/-!
Shallow embedding of the alarm-appliance core of `main.py` / `audio.py`:
the alarm controller state machine (trigger / mute / reset with the
reset-wait thread's local press counter), the audio worker command loop,
the `SoundPlayer` subprocess wrapper, the double-sample debounce polling
loops, the module-level configuration loading, and the shutdown paths.
Every definition is translated from the source; the doc comment of each
definition names the Python function it embeds.
-/

namespace AlarmCore

/-- History messages written via `add_history` by the controller code
(`main.py`).  Each constructor is one distinct `add_history` call site. -/
inductive HMsg where
  /-- "Alarm-Trigger ignoriert (bereits aktiv)" — `trigger`, line 289 -/
  | triggerIgnored
  /-- "Alarm ausgelöst (source)" — `trigger`, line 292 -/
  | triggered
  /-- "Reset-Taste gedrückt (n)" — `_wait_for_reset`, line 309 -/
  | resetPressed (n : Nat)
  /-- "Aktion: Mute (GUI/Hardware)" — `mute`, line 331 -/
  | muteGeneric
  /-- "Aktion: Mute (1. Druck)" — `_wait_for_reset`, line 315 -/
  | muteFirstPress
  /-- "Aktion: Reset - System reaktiviert" — `reset`, line 343 -/
  | resetGeneric
  /-- "Aktion: Reset (2. Druck)" — `_wait_for_reset`, line 318 -/
  | resetSecondPress
  /-- "Mute über GUI" — `AlarmApp.on_mute`, line 606 -/
  | muteGui
  /-- "Reset über GUI" — `AlarmApp.on_reset`, line 611 -/
  | resetGui
deriving DecidableEq

/-- Commands put on `audio_cmd_q` (`queue.Queue`, FIFO): the tuples
`("play", path)`, `("stop", None)`, `("set_volume", n)`, `("exit", None)`. -/
inductive AudioCmd where
  | play (f : String)
  | stop
  | setVolume (n : Int)
  | exitCmd
deriving DecidableEq

/-- Default alarm sound path, `DEFAULT_CONFIG["ALARM_MP3"]` (`main.py`
line 41, the value when the `ALARM_MP3` environment variable is unset). -/
def ALARM_MP3 : String := "sounds/alarm.mp3"

/-- Controller-visible state of `main.py`: the module globals
`alarm_active`, the buzzer pin (`PIN_OUTPUT_BUZ`) and indicator pin
(`PIN_OUTPUT_LED`) levels (`true` = HIGH), the contents of `audio_cmd_q`
(oldest first), the `history` deque (newest first, as `appendleft` does),
and the `_wait_for_reset` thread: `waitThread` records whether such a
thread is running, `pressCount` its local `press_count` variable
(`0` when no thread is running — the counter exists only inside a running
wait thread, and a freshly started thread begins at `press_count = 0`). -/
structure Sys where
  alarmActive : Bool
  pressCount : Nat
  waitThread : Bool
  buz : Bool
  led : Bool
  queue : List AudioCmd
  history : List HMsg
deriving DecidableEq

/-- State at module start: `alarm_active = False`, both outputs written
LOW at pin setup (`main.py` lines 141-142), empty queue and history, no
wait thread. -/
def initSys : Sys :=
  { alarmActive := false, pressCount := 0, waitThread := false,
    buz := false, led := false, queue := [], history := [] }

/-- `AlarmController.mute` (lines 325-331): buzzer LOW, enqueue stop,
history entry. -/
def muteFx (s : Sys) : Sys :=
  { s with buz := false, queue := s.queue ++ [.stop],
           history := .muteGeneric :: s.history }

/-- `AlarmController.reset` (lines 333-343): enqueue stop, buzzer LOW,
indicator LOW, `alarm_active = False`, history entry. -/
def resetFx (s : Sys) : Sys :=
  { s with queue := s.queue ++ [.stop], buz := false, led := false,
           alarmActive := false, history := .resetGeneric :: s.history }

/-- The externally triggerable transitions of the controller state:
`trigger` (from the hardware button monitor or the GUI), a confirmed
reset-button press handled by the `_wait_for_reset` thread, and the GUI
entry points `on_mute` / `on_reset`. -/
inductive Ev where
  | trigger
  | resetPress
  | uiMute
  | uiReset
deriving DecidableEq

/-- One controller transition, from the source:
* `.trigger` — `AlarmController.trigger` (lines 283-299): if already
  active, only the "ignoriert" history entry; otherwise set active,
  write buzzer and indicator HIGH, enqueue `("play", ALARM_MP3)` and
  start a fresh `_wait_for_reset` thread (local `press_count = 0`).
* `.resetPress` — a confirmed press seen by `_wait_for_reset`
  (lines 301-323): `press_count += 1`; on the first press call `mute()`
  then log "Aktion: Mute (1. Druck)"; on the second call `reset()`, log
  "Aktion: Reset (2. Druck)" and `break` (the thread, and with it its
  local counter, ends).  With no wait thread running nothing polls the
  reset pin, so the event is the identity.
* `.uiMute` — `AlarmApp.on_mute` (lines 604-607): `mute()` then the
  "Mute über GUI" entry.  Note it does not touch `press_count`.
* `.uiReset` — `AlarmApp.on_reset` (lines 609-612): `reset()` then the
  "Reset über GUI" entry. -/
def step (s : Sys) : Ev → Sys
  | .trigger =>
    if s.alarmActive then
      { s with history := .triggerIgnored :: s.history }
    else
      { s with alarmActive := true, buz := true, led := true,
               queue := s.queue ++ [.play ALARM_MP3],
               history := .triggered :: s.history,
               waitThread := true, pressCount := 0 }
  | .resetPress =>
    if s.waitThread then
      let n := s.pressCount + 1
      let s1 := { s with pressCount := n, history := .resetPressed n :: s.history }
      if n = 1 then
        { muteFx s1 with history := .muteFirstPress :: (muteFx s1).history }
      else
        { resetFx s1 with history := .resetSecondPress :: (resetFx s1).history,
                          waitThread := false, pressCount := 0 }
    else s
  | .uiMute => { muteFx s with history := .muteGui :: (muteFx s).history }
  | .uiReset => { resetFx s with history := .resetGui :: (resetFx s).history }

/-- States reachable from process start through controller transitions. -/
inductive Reachable : Sys → Prop where
  | init : Reachable initSys
  | step (s : Sys) (e : Ev) : Reachable s → Reachable (step s e)

end AlarmCore

namespace AudioW

open AlarmCore (AudioCmd)

/-- Observable actions on the sound-output backend: terminating the
running `mpg123` process (`self._proc.terminate()`) and spawning a new
one (`subprocess.Popen`) for a file.  `terminate` is modelled as
immediately ending the old playback, which is how both `audio.py` and the
spec treat it. -/
inductive BAct where
  | terminate (f : String)
  | spawn (f : String)
deriving DecidableEq

/-- Errors `SoundPlayer.play` raises: `FileNotFoundError` when the file
is missing (`audio.py` lines 73-74).  The `RuntimeError` for a missing
`mpg123` binary is outside the model (the claims assume a working
player). -/
inductive PlayErr where
  | fileNotFound
deriving DecidableEq

/-- `SoundPlayer.play(filepath, interrupt)` (`audio.py` lines 68-98),
with the filesystem abstracted as `ex : String → Bool`.  The player's
process handle `self._proc` is `Option String`: `some f` when a process
playing `f` is still running (`poll() is None`), `none` otherwise.
If the file is missing, raise.  Otherwise, under the lock: if a process
is still running and `interrupt` is true, terminate it and spawn the new
one; if one is running and `interrupt` is false, return without any
backend action, handle unchanged; if none is running, just spawn.  The
result is the new handle plus the list of backend actions in order. -/
def spPlay (ex : String → Bool) (p : Option String) (f : String)
    (interrupt : Bool) : Except PlayErr (Option String × List BAct) :=
  if ex f then
    match p with
    | some a =>
      if interrupt then .ok (some f, [.terminate a, .spawn f])
      else .ok (some a, [])
    | none => .ok (some f, [.spawn f])
  else .error .fileNotFound

/-- `SoundPlayer.stop` (`audio.py` lines 100-107): terminate the process
if one is still running. -/
def spStop (p : Option String) : Option String × List BAct :=
  match p with
  | some a => (none, [.terminate a])
  | none => (none, [])

/-- State of the `AudioWorker` loop (`main.py` lines 206-276): the global
`audio_playing` flag, the player's process handle, the number of
`LOG.error` calls, the number of `add_history` entries appended by the
worker, and the system volume last set via `set_system_volume`. -/
structure WState where
  playing : Bool
  player : Option String
  errors : Nat
  hist : Nat
  sysVol : Int
deriving DecidableEq

/-- Worker state right after startup with a working player: not playing,
no process spawned yet, volume at the default 80. -/
def initW : WState :=
  { playing := false, player := none, errors := 0, hist := 0, sysVol := 80 }

/-- The `"play"` branch of `AudioWorker.run` (`main.py` lines 225-242)
for a worker whose player initialized.  If the file does not exist:
one `LOG.error`, one history entry, `continue` — no backend action, no
flag change, nothing raised.  Otherwise set `audio_playing = True`, call
`_safe_play` → `player.play(filepath, interrupt=True)` (non-blocking:
it spawns the process and returns at once), and in the `finally` block
set `audio_playing = False`.  The third component records the value the
flag held during the backend invocation (`none` when the backend was
never called). -/
def handlePlay (ex : String → Bool) (s : WState) (f : String) :
    WState × List BAct × Option Bool :=
  if ex f then
    match spPlay ex s.player f true with
    | .ok (p, tr) => ({ s with playing := false, player := p }, tr, some true)
    | .error _ => ({ s with playing := false, errors := s.errors + 1 }, [], some true)
  else
    ({ s with errors := s.errors + 1, hist := s.hist + 1 }, [], none)

/-- One command dispatch of the `AudioWorker.run` loop body
(`main.py` lines 225-264): `"play"` as `handlePlay`; `"stop"` stops the
player, clears `audio_playing` and logs one history entry; `"set_volume"`
clamps to `[0, 100]` (`set_system_volume`, line 169) and logs one history
entry; `"exit"` only breaks the loop (handled in `runWorker`). -/
def handleCmd (ex : String → Bool) (s : WState) : AudioCmd → WState × List BAct
  | .play f => let r := handlePlay ex s f; (r.1, r.2.1)
  | .stop =>
    let r := spStop s.player
    ({ s with playing := false, player := r.1, hist := s.hist + 1 }, r.2)
  | .setVolume n => ({ s with sysVol := max 0 (min 100 n), hist := s.hist + 1 }, [])
  | .exitCmd => (s, [])

/-- The worker consuming a list of queued commands in FIFO order — the
commands are taken from `audio_cmd_q` (a `queue.Queue`) one at a time by
the single consumer thread, so list order is consumption order.  On
`"exit"` the loop breaks and the cleanup after the loop (lines 267-275)
stops the player and clears `audio_playing`; the rest of the queue is not
drained. -/
def runWorker (ex : String → Bool) (s : WState) : List AudioCmd → WState × List BAct
  | [] => (s, [])
  | .exitCmd :: _ =>
    let r := spStop s.player
    ({ s with playing := false, player := r.1 }, r.2)
  | c :: cs =>
    let r := handleCmd ex s c
    let r2 := runWorker ex r.1 cs
    (r2.1, r.2 ++ r2.2)

/-- A filesystem on which every path exists. -/
def exAll : String → Bool := fun _ => true

/-- A filesystem on which no path exists. -/
def exNone : String → Bool := fun _ => false

end AudioW

namespace Debounce

/-- The inner release-wait loop of `monitor_alarm_button` (`main.py`
lines 382-383) and `_wait_for_reset` (lines 311-312): starting at sample
time `t` (milliseconds), read the pin every 50 ms until it reads LOW, and
return the time of that LOW sample.  `sig t` is the raw level at time
`t`; `fuel` bounds the number of loop iterations. -/
def releaseWait (sig : Nat → Bool) : Nat → Nat → Nat
  | 0, t => t
  | fuel + 1, t => if sig t then releaseWait sig fuel (t + 50) else t

/-- The polling loop of `monitor_alarm_button` (`main.py` lines 373-387),
returning the times at which a confirmed edge fires `trigger()`.  Each
iteration: read the pin at time `t`; if HIGH, sleep 0.05 s and read
again; if still HIGH, this is a confirmed edge (recorded at `t + 50`),
then wait for release sampling every 50 ms; every iteration ends with
`time.sleep(0.1)` before the next poll.  So the next poll is at
`t + 100` after a LOW read, at `t + 150` after a discarded bounce, and
at `release + 100` after a confirmed press.  `_wait_for_reset` runs the
same 50 ms double-sample pattern in its own loop with its own local
state, so the two buttons share no debounce state. -/
def runMonitor (sig : Nat → Bool) : Nat → Nat → List Nat
  | 0, _ => []
  | fuel + 1, t =>
    if sig t then
      if sig (t + 50) then
        (t + 50) :: runMonitor sig fuel (releaseWait sig fuel (t + 50) + 100)
      else
        runMonitor sig fuel (t + 150)
    else
      runMonitor sig fuel (t + 100)

/-- A single button press: the raw level is HIGH exactly during
`[s, s + d)` — held for `d` milliseconds from time `s`. -/
def pulse (s d : Nat) : Nat → Bool :=
  fun t => decide (s ≤ t) && decide (t < s + d)

end Debounce

namespace Config

/-- JSON values as far as `config.json` is concerned. -/
inductive JVal where
  | jnull
  | jbool (b : Bool)
  | jnum (n : Int)
  | jstr (s : String)
deriving DecidableEq

/-- A JSON object: key/value pairs, first binding wins on lookup. -/
abbrev JObj := List (String × JVal)

/-- `dict` lookup. -/
def lookupJ (o : JObj) (k : String) : Option JVal :=
  (o.find? fun p => p.1 == k).map Prod.snd

/-- `DEFAULT_CONFIG` (`main.py` lines 40-45) with the environment
variables unset and `IS_RPI = False` (so `SIMULATE_GPIO` defaults to
true). -/
def DEFAULT_CONFIG : JObj :=
  [("ALARM_MP3", .jstr "sounds/alarm.mp3"),
   ("SOUND_DEVICE", .jnull),
   ("VOLUME_PERCENT", .jnum 80),
   ("SIMULATE_GPIO", .jbool true)]

/-- The possible states of `config.json` as `load_config` distinguishes
them: absent, unreadable or invalid JSON (`json.load` raises), valid JSON
that is not an object, or a JSON object. -/
inductive ConfigFile where
  | missing
  | unreadable
  | nonDict
  | dict (o : JObj)

/-- `load_config` (`main.py` lines 48-58): start from a copy of the
defaults; if the file exists and parses to a dict, `cfg.update(data)`
— keys from the file override the defaults.  Any exception while loading
is caught and the defaults are returned.  Only lookup is observable, so
the merge is modelled by prepending the file's bindings. -/
def load_config : ConfigFile → JObj
  | .dict o => o ++ DEFAULT_CONFIG
  | _ => DEFAULT_CONFIG

/-- The numeric value of a decimal digit, `none` for any other
character. -/
def charDigit (c : Char) : Option Nat :=
  if c.toNat < 48 ∨ 57 < c.toNat then none else some (c.toNat - 48)

/-- Consume a (possibly empty) run of decimal digits, most significant
first, starting from the accumulator. -/
def parseDigits : List Char → Nat → Option Nat
  | [], acc => some acc
  | c :: cs, acc =>
    match charDigit c with
    | some d => parseDigits cs (acc * 10 + d)
    | none => none

/-- Python's `int(...)` applied to a string: surrounding whitespace is
ignored, an optional sign is allowed, and the rest must be one or more
decimal digits; anything else raises `ValueError`. -/
def pyIntOfStr (s : String) : Option Int :=
  let cs := ((s.toList.dropWhile fun c => c = ' ').reverse.dropWhile
      fun c => c = ' ').reverse
  match cs with
  | [] => none
  | '-' :: rest =>
    if rest = [] then none else (parseDigits rest 0).map fun n => -(n : Int)
  | '+' :: rest =>
    if rest = [] then none else (parseDigits rest 0).map fun n => (n : Int)
  | rest => (parseDigits rest 0).map fun n => (n : Int)

/-- Python's `int(...)` conversion as applied on `main.py` line 72:
succeeds on numbers and booleans and on strings that parse as a decimal
integer; raises `ValueError` on other strings and `TypeError` on
`None`. -/
def pyInt : JVal → Except Unit Int
  | .jnum n => .ok n
  | .jbool b => .ok (if b then 1 else 0)
  | .jstr s =>
    match pyIntOfStr s with
    | some n => .ok n
    | none => .error ()
  | .jnull => .error ()

/-- Python's `bool(...)` as applied on `main.py` line 73: never raises. -/
def pyBool : JVal → Bool
  | .jnull => false
  | .jbool b => b
  | .jnum n => n != 0
  | .jstr s => s != ""

/-- The module-level configuration values computed on `main.py` lines
69-73. -/
structure StartupCfg where
  alarmMp3 : JVal
  soundDevice : JVal
  volumePercent : Int
  simulateGpio : Bool
deriving DecidableEq

/-- Module import of `main.py`, lines 69-73: `config = load_config()`
followed by the four module-level assignments.  The `int(...)` on
`VOLUME_PERCENT` (line 72) runs outside any `try`, so its failure
propagates and aborts startup — modelled by the `Except`. -/
def startup (f : ConfigFile) : Except Unit StartupCfg :=
  let cfg := load_config f
  match pyInt ((lookupJ cfg "VOLUME_PERCENT").getD (.jnum 80)) with
  | .error e => .error e
  | .ok v =>
    .ok { alarmMp3 := (lookupJ cfg "ALARM_MP3").getD (.jstr "sounds/alarm.mp3"),
          soundDevice := (lookupJ cfg "SOUND_DEVICE").getD .jnull,
          volumePercent := v,
          simulateGpio := pyBool ((lookupJ cfg "SIMULATE_GPIO").getD (.jbool true)) }

/-- The configuration produced from the bare defaults. -/
def defaultStartup : StartupCfg :=
  { alarmMp3 := .jstr "sounds/alarm.mp3", soundDevice := .jnull,
    volumePercent := 80, simulateGpio := true }

end Config

namespace Shutdown

/-- The externally visible effects executed on the shutdown code paths
of `main.py`: `messagebox.askokcancel`, logging, `_stop_event.set()`,
`audio_cmd_q.put(("exit", None))`, `root.quit()`, `time.sleep(0.2)`,
`GPIO.cleanup()`, `sys.exit(0)`. -/
inductive Eff where
  | askConfirm
  | logMsg
  | setStopFlag
  | enqueueExitCmd
  | quitTk
  | sleepPause
  | gpioCleanup
  | sysExit
deriving DecidableEq

/-- `AlarmApp.on_exit` (`main.py` lines 641-649), confirmation accepted:
log, set the stop flag, enqueue the exit sentinel, quit the Tk loop. -/
def onExitEffects : List Eff :=
  [.askConfirm, .logMsg, .setStopFlag, .enqueueExitCmd, .quitTk]

/-- `signal_handler` (`main.py` lines 706-720): log, set the stop flag,
enqueue the exit sentinel, quit Tk, sleep 0.2 s, `GPIO.cleanup()`, log,
`sys.exit(0)` (which raises `SystemExit`). -/
def signalHandlerEffects : List Eff :=
  [.logMsg, .setStopFlag, .enqueueExitCmd, .quitTk, .sleepPause,
   .gpioCleanup, .logMsg, .sysExit]

/-- The `finally` block of `main` (`main.py` lines 757-765), which runs
whenever `root.mainloop()` returns or an exception unwinds through it:
set the stop flag, enqueue the exit sentinel, sleep, `GPIO.cleanup()`,
log. -/
def mainFinallyEffects : List Eff :=
  [.setStopFlag, .enqueueExitCmd, .sleepPause, .gpioCleanup, .logMsg]

/-- The process shutdown paths of `main.py`:
* `uiExit` — GUI Exit button: `on_exit` quits the main loop, then
  `main`'s `finally` runs;
* `osSignal` — SIGINT/SIGTERM: `signal_handler` runs to completion
  (including its own `GPIO.cleanup()`), its `sys.exit(0)` raises
  `SystemExit`, which unwinds out of `mainloop` — it is not a
  `KeyboardInterrupt`, so it reaches `main`'s `finally`;
* `keyboardInterrupt` — a `KeyboardInterrupt` escaping `mainloop` is
  caught and logged, then the `finally` runs. -/
inductive ShutdownPath where
  | uiExit
  | osSignal
  | keyboardInterrupt
deriving DecidableEq

/-- The sequence of effects executed on each shutdown path. -/
def shutdownTrace : ShutdownPath → List Eff
  | .uiExit => onExitEffects ++ mainFinallyEffects
  | .osSignal => signalHandlerEffects ++ mainFinallyEffects
  | .keyboardInterrupt => .logMsg :: mainFinallyEffects

/-- How many times `GPIO.cleanup()` runs on a shutdown path. -/
def cleanupCalls (p : ShutdownPath) : Nat :=
  (shutdownTrace p).count .gpioCleanup

end Shutdown

namespace AlarmCore

/-- Preservation of the buzzer invariant by every controller transition:
the buzzer pin is HIGH only while the alarm is active and the current
wait thread has not yet counted a press.  The converse fails (see the
counterexample for C4): `mute()` from the GUI lowers the buzzer without
touching the wait thread's `press_count`. -/
theorem buzInv_step (s : Sys) (e : Ev)
    (h : s.buz = true → s.alarmActive = true ∧ s.pressCount = 0) :
    (step s e).buz = true → (step s e).alarmActive = true ∧ (step s e).pressCount = 0 := by
  cases e with
  | trigger =>
    by_cases ha : s.alarmActive = true
    · simpa [step, ha] using h
    · simp [step, ha]
  | resetPress =>
    by_cases hw : s.waitThread = true
    · by_cases hn : s.pressCount + 1 = 1 <;>
        simp [step, hw, hn, muteFx, resetFx]
    · simpa [step, hw] using h
  | uiMute => simp [step, muteFx]
  | uiReset => simp [step, resetFx]

/-- C1: starting from Idle, `trigger()` sets the state Active with
counter 0, writes buzzer HIGH and indicator HIGH and enqueues exactly one
Play command for the configured sound; the first confirmed reset press
writes the buzzer LOW, enqueues one Stop, and leaves the state Active;
the second press returns the state to Idle with counter 0 and writes the
indicator LOW. -/
theorem C1_two_stage_ack :
    ((step initSys .trigger).alarmActive = true ∧
     (step initSys .trigger).pressCount = 0 ∧
     (step initSys .trigger).buz = true ∧
     (step initSys .trigger).led = true ∧
     (step initSys .trigger).queue = [.play ALARM_MP3]) ∧
    ((step (step initSys .trigger) .resetPress).buz = false ∧
     (step (step initSys .trigger) .resetPress).queue = [.play ALARM_MP3, .stop] ∧
     (step (step initSys .trigger) .resetPress).alarmActive = true) ∧
    ((step (step (step initSys .trigger) .resetPress) .resetPress).alarmActive = false ∧
     (step (step (step initSys .trigger) .resetPress) .resetPress).pressCount = 0 ∧
     (step (step (step initSys .trigger) .resetPress) .resetPress).led = false) := by
  decide

/-- C2: in every state in which the alarm is already active, `trigger()`
enqueues nothing, performs no GPIO writes and changes no state; its only
effect is prepending the "Alarm-Trigger ignoriert" history entry. -/
theorem C2_trigger_noop_when_active (s : Sys) (h : s.alarmActive = true) :
    step s .trigger = { s with history := .triggerIgnored :: s.history } := by
  simp [step, h]

/-- Witness for C2 at the state reached by one trigger from start. -/
theorem C2_trigger_noop_when_active_w :
    (step initSys .trigger).alarmActive = true ∧
    step (step initSys .trigger) .trigger
      = { step initSys .trigger with
          history := .triggerIgnored :: (step initSys .trigger).history } :=
  ⟨by decide, C2_trigger_noop_when_active (step initSys .trigger) (by decide)⟩

/-- Counterexample for C4.  The claim "the buzzer output is HIGH if and
only if the alarm state is Active and the acknowledgment counter is 0"
fails in the reachable state obtained by `trigger()` followed by the GUI
mute (`on_mute`): `mute()` (lines 325-331) writes the buzzer LOW but does
not touch the wait thread's `press_count`, so the state is Active with
counter 0 while the buzzer reads LOW. -/
theorem C4_buzzer_iff_cex :
    ¬ (∀ s, Reachable s →
        (s.buz = true ↔ s.alarmActive = true ∧ s.pressCount = 0)) := by
  intro hcl
  have hr : Reachable (step (step initSys .trigger) .uiMute) :=
    Reachable.step _ _ (Reachable.step _ _ Reachable.init)
  have h2 := (hcl _ hr).mpr (by decide)
  exact absurd h2 (by decide)

/-- C4 amended: in every reachable state the buzzer is HIGH *only if* the
alarm is Active with acknowledgment counter 0 (the converse direction of
the claimed equivalence fails, because the UI mute lowers the buzzer
without advancing the counter); and after any mute — hardware or UI entry
point — the buzzer is LOW while the alarm-active flag is unchanged. -/
theorem C4_buzzer_inv_amended (s : Sys) (h : Reachable s) :
    (s.buz = true → s.alarmActive = true ∧ s.pressCount = 0) ∧
    ((step s .uiMute).buz = false ∧
     (step s .uiMute).alarmActive = s.alarmActive) := by
  refine ⟨?_, ?_, ?_⟩
  · induction h with
    | init => exact fun h => absurd h (by decide)
    | step s e _ ih => exact buzInv_step s e ih
  · simp [step, muteFx]
  · simp [step, muteFx]

/-- Witness for C4 amended at the reachable state after one trigger. -/
theorem C4_buzzer_inv_amended_w :
    (((step initSys .trigger).buz = true →
       (step initSys .trigger).alarmActive = true ∧
       (step initSys .trigger).pressCount = 0) ∧
     ((step (step initSys .trigger) .uiMute).buz = false ∧
      (step (step initSys .trigger) .uiMute).alarmActive
        = (step initSys .trigger).alarmActive)) :=
  C4_buzzer_inv_amended _ (Reachable.step _ _ Reachable.init)

end AlarmCore

namespace AudioW

/-- C3: the worker consumes audio commands in FIFO order, and a `Play(b)`
processed while `a`'s playback is still in flight terminates `a` before
spawning `b` (backend action order `[spawn a, terminate a, spawn b]`), so
the single process handle — the only playback the worker ever owns —
ends up holding `b`.  The first conjunct exhibits the state between the
two commands: after `Play(a)` alone, `a` is the (unique) active
playback. -/
theorem C3_fifo_supersede (ex : String → Bool) (a b : String)
    (ha : ex a = true) (hb : ex b = true) :
    (handleCmd ex initW (.play a)).1.player = some a ∧
    runWorker ex initW [.play a, .play b]
      = ({ initW with player := some b },
         [.spawn a, .terminate a, .spawn b]) := by
  constructor
  · simp [handleCmd, handlePlay, spPlay, ha, initW]
  · simp [runWorker, handleCmd, handlePlay, spPlay, ha, hb, initW]

/-- Witness for C3 on a filesystem where both files exist. -/
theorem C3_fifo_supersede_w :
    (handleCmd exAll initW (.play "a.mp3")).1.player = some "a.mp3" ∧
    runWorker exAll initW [.play "a.mp3", .play "b.mp3"]
      = ({ initW with player := some "b.mp3" },
         [.spawn "a.mp3", .terminate "a.mp3", .spawn "b.mp3"]) :=
  C3_fifo_supersede exAll "a.mp3" "b.mp3" rfl rfl

/-- Counterexample for C6.  The claim says the "currently playing" flag
is set to false only on completion of the playback, so it reads true
while the backend plays.  But `SoundPlayer.play` is non-blocking (it
spawns `mpg123` and returns), and the worker's `finally` block clears
`audio_playing` as soon as the call returns: right after the worker
finishes handling the command the backend process handle is live while
the flag already reads false. -/
theorem C6_flag_cex :
    ¬ ((handlePlay exAll initW "sounds/alarm.mp3").1.player.isSome = true →
       (handlePlay exAll initW "sounds/alarm.mp3").1.playing = true) := by
  decide

/-- C6 amended: when the worker processes a Play command for an existing
file with a working player, the flag is recorded as true during the
backend `play` invocation, but it is reset to false as soon as that
(non-blocking) invocation returns — so after the command is handled the
flag is false even though the spawned playback of the file is still the
player's live process.  The flag tracks the dispatch of the command, not
the duration of the playback. -/
theorem C6_flag_amended (ex : String → Bool) (s : WState) (f : String)
    (h : ex f = true) :
    (handlePlay ex s f).2.2 = some true ∧
    (handlePlay ex s f).1.playing = false ∧
    (handlePlay ex s f).1.player = some f := by
  cases hp : s.player <;> simp [handlePlay, spPlay, h, hp]

/-- Witness for C6 amended at a concrete existing file. -/
theorem C6_flag_amended_w :
    (handlePlay exAll initW "sounds/alarm.mp3").2.2 = some true ∧
    (handlePlay exAll initW "sounds/alarm.mp3").1.playing = false ∧
    (handlePlay exAll initW "sounds/alarm.mp3").1.player = some "sounds/alarm.mp3" :=
  C6_flag_amended exAll initW "sounds/alarm.mp3" rfl

/-- C7: a Play command whose file does not exist increments the error
log exactly once, appends one history entry, and changes nothing else:
no backend action is emitted (`none` records that the backend was never
invoked) and the playing flag is untouched.  The handler is a total
function — the branch ends in `continue`, so no exception escapes the
worker loop. -/
theorem C7_missing_file (ex : String → Bool) (s : WState) (f : String)
    (h : ex f = false) :
    handlePlay ex s f
      = ({ s with errors := s.errors + 1, hist := s.hist + 1 }, [], none) := by
  simp [handlePlay, h]

/-- Witness for C7 at the missing path from the spec scenario. -/
theorem C7_missing_file_w :
    handlePlay exNone initW "/does/not/exist.mp3"
      = ({ initW with errors := initW.errors + 1, hist := initW.hist + 1 },
         [], none) :=
  C7_missing_file exNone initW "/does/not/exist.mp3" rfl

/-- C10: calling `SoundPlayer.play(f, interrupt=False)` while a previous
process is still running returns without any backend action — no new
process is spawned, the running playback is not terminated, and the
process handle is unchanged; with `interrupt=True` the running process is
terminated and replaced by the new one. -/
theorem C10_play_no_interrupt (ex : String → Bool) (a f : String)
    (h : ex f = true) :
    spPlay ex (some a) f false = .ok (some a, []) ∧
    spPlay ex (some a) f true = .ok (some f, [.terminate a, .spawn f]) := by
  simp [spPlay, h]

/-- Witness for C10 with a concrete running file and request. -/
theorem C10_play_no_interrupt_w :
    spPlay exAll (some "old.mp3") "new.mp3" false = .ok (some "old.mp3", []) ∧
    spPlay exAll (some "old.mp3") "new.mp3" true
      = .ok (some "new.mp3", [.terminate "old.mp3", .spawn "new.mp3"]) :=
  C10_play_no_interrupt exAll "old.mp3" "new.mp3" rfl

end AudioW

namespace Debounce

/-- `pulse` reads HIGH exactly inside the hold interval. -/
theorem pulse_eq_true {s d t : Nat} : pulse s d t = true ↔ s ≤ t ∧ t < s + d := by
  simp [pulse]

/-- Once the press is over, the monitor never fires again: every later
sample reads LOW. -/
theorem runMonitor_after (s d : Nat) (fuel : Nat) :
    ∀ t, s + d ≤ t → runMonitor (pulse s d) fuel t = [] := by
  induction fuel with
  | zero => intro t _; rfl
  | succ n ih =>
    intro t h
    have hf : ¬ pulse s d t = true := by
      rw [pulse_eq_true]; omega
    simp only [runMonitor, if_neg hf]
    exact ih (t + 100) (by omega)

/-- A press held strictly shorter than the 50 ms stability window is
never confirmed: whenever the first sample lands in the press, the
second sample 50 ms later is already past it. -/
theorem runMonitor_short (s d : Nat) (fuel : Nat) (hd : d < 50) :
    ∀ t, runMonitor (pulse s d) fuel t = [] := by
  induction fuel with
  | zero => intro t; rfl
  | succ n ih =>
    intro t
    by_cases h1 : pulse s d t = true
    · have hs := pulse_eq_true.mp h1
      have h2 : ¬ pulse s d (t + 50) = true := by
        rw [pulse_eq_true]; omega
      simp only [runMonitor, if_pos h1, if_neg h2]
      exact ih (t + 150)
    · simp only [runMonitor, if_neg h1]
      exact ih (t + 100)

/-- With enough fuel, the release wait started inside or after the press
returns a time at or after the press's end. -/
theorem releaseWait_ge (s d : Nat) :
    ∀ fuel u, s ≤ u → s + d ≤ u + 50 * fuel →
      s + d ≤ releaseWait (pulse s d) fuel u := by
  intro fuel
  induction fuel with
  | zero => intro u _ hb; simpa [releaseWait] using hb
  | succ n ih =>
    intro u hs hb
    by_cases h1 : pulse s d u = true
    · have hu := pulse_eq_true.mp h1
      simp only [releaseWait, if_pos h1]
      exact ih (u + 50) (by omega) (by omega)
    · have : s + d ≤ u := by
        have hn : ¬ (s ≤ u ∧ u < s + d) := fun h => h1 (pulse_eq_true.mpr h)
        omega
      simp only [releaseWait, if_neg h1]
      omega

/-- A press held at least 150 ms — one 100 ms polling interval plus the
50 ms stability window — is confirmed exactly once, provided the fuel
covers the run. -/
theorem runMonitor_long (s d : Nat) (hd : 150 ≤ d) :
    ∀ fuel t, t < s + 100 → s + d + 250 ≤ t + 50 * fuel →
      (runMonitor (pulse s d) fuel t).length = 1 := by
  intro fuel
  induction fuel with
  | zero => intro t h1 h2; exact absurd h2 (by omega)
  | succ n ih =>
    intro t h1 h2
    by_cases hp : pulse s d t = true
    · have hps := pulse_eq_true.mp hp
      have hp2 : pulse s d (t + 50) = true := pulse_eq_true.mpr (by omega)
      have hrel : s + d ≤ releaseWait (pulse s d) n (t + 50) :=
        releaseWait_ge s d n (t + 50) (by omega) (by omega)
      have htail : runMonitor (pulse s d) n
          (releaseWait (pulse s d) n (t + 50) + 100) = [] :=
        runMonitor_after s d n _ (by omega)
      simp only [runMonitor, if_pos hp, if_pos hp2, htail, List.length_cons,
        List.length_nil]
    · have hn : ¬ (s ≤ t ∧ t < s + d) := fun h => hp (pulse_eq_true.mpr h)
      simp only [runMonitor, if_neg hp]
      exact ih (t + 100) (by omega) (by omega)

/-- Counterexample for C5, refuting both halves of the claim on the
polling debouncer of `monitor_alarm_button`:
* a press held HIGH for exactly the 50 ms stability window (from 60 ms
  to 110 ms) falls between the 100 ms polls' double-samples and produces
  *zero* confirmed edges, against "held for at least the stability window
  yields exactly one confirmed edge";
* a noisy signal HIGH only during [0,10) and [50,60) — each level held
  strictly less than the window — happens to read HIGH at both samples of
  one poll (0 ms and 50 ms) and produces a confirmed edge, against "a
  level held for strictly less than the stability window never yields a
  confirmed edge". -/
theorem C5_debounce_cex :
    runMonitor (pulse 60 50) 20 0 = [] ∧
    (runMonitor (fun t => pulse 0 10 t || pulse 50 10 t) 20 0).length = 1 := by
  decide

/-- C5 amended: for a signal consisting of a single press, a press held
strictly less than the 50 ms stability window never yields a confirmed
edge; a press held at least 150 ms — one polling tick plus the stability
window — yields exactly one confirmed edge (the alarm and reset loops
each run this pattern with their own local state, so their debounce
state stays independent). -/
theorem C5_debounce_amended (s d fuel : Nat) :
    (d < 50 → runMonitor (pulse s d) fuel 0 = []) ∧
    (150 ≤ d → s + d + 250 ≤ 50 * fuel →
      (runMonitor (pulse s d) fuel 0).length = 1) := by
  constructor
  · intro hd; exact runMonitor_short s d fuel hd 0
  · intro hd hb; exact runMonitor_long s d hd fuel 0 (by omega) (by omega)

/-- Witness for C5 amended: a 10 ms press yields nothing, a 150 ms press
starting at 0 yields exactly one confirmed edge. -/
theorem C5_debounce_amended_w :
    runMonitor (pulse 0 10) 5 0 = [] ∧
    (runMonitor (pulse 0 150) 8 0).length = 1 :=
  ⟨(C5_debounce_amended 0 10 5).1 (by decide),
   (C5_debounce_amended 0 150 8).2 (by decide) (by decide)⟩

end Debounce

namespace Config

/-- A key absent from the file's object is looked up in the defaults. -/
theorem lookupJ_append_none (o d : JObj) (k : String)
    (h : lookupJ o k = none) : lookupJ (o ++ d) k = lookupJ d k := by
  induction o with
  | nil => rfl
  | cons p ps ih =>
    cases hk : (p.1 == k) with
    | true => simp [lookupJ, List.find?, hk] at h
    | false =>
      simp only [lookupJ, List.cons_append, List.find?, hk] at h ⊢
      exact ih h

/-- A key present in the file's object shadows the defaults. -/
theorem lookupJ_append_some (o d : JObj) (k : String) (v : JVal)
    (h : lookupJ o k = some v) : lookupJ (o ++ d) k = some v := by
  induction o with
  | nil => simp [lookupJ] at h
  | cons p ps ih =>
    cases hk : (p.1 == k) with
    | true =>
      simp only [lookupJ, List.cons_append, List.find?, hk] at h ⊢
      exact h
    | false =>
      simp only [lookupJ, List.cons_append, List.find?, hk] at h ⊢
      exact ih h

/-- Counterexample for C9.  A syntactically valid `config.json` whose
`VOLUME_PERCENT` is the string `"laut"` makes `load_config` succeed (the
merge happens inside the `try`), but the module-level
`int(config.get("VOLUME_PERCENT", 80))` on line 72 runs outside any
`try` and raises `ValueError`, aborting startup — against "invalid
configuration never aborts startup". -/
theorem C9_config_cex :
    startup (.dict [("VOLUME_PERCENT", JVal.jstr "laut")]) = .error () := by
  rfl

/-- C9 amended: a missing, unreadable or non-object configuration file,
and any configuration object without a `VOLUME_PERCENT` key, fall back
to the documented defaults without aborting startup; but a configuration
object whose `VOLUME_PERCENT` value is present and not convertible by
`int(...)` (a non-numeric string, or null) raises at import time and
aborts startup. -/
theorem C9_config_amended (o : JObj) :
    startup .missing = .ok defaultStartup ∧
    startup .unreadable = .ok defaultStartup ∧
    startup .nonDict = .ok defaultStartup ∧
    (lookupJ o "VOLUME_PERCENT" = none →
      ∃ c, startup (.dict o) = .ok c ∧ c.volumePercent = 80) ∧
    (∀ v, lookupJ o "VOLUME_PERCENT" = some v → pyInt v = .error () →
      startup (.dict o) = .error ()) := by
  refine ⟨rfl, rfl, rfl, ?_, ?_⟩
  · intro h
    have hv : lookupJ (o ++ DEFAULT_CONFIG) "VOLUME_PERCENT"
        = some (.jnum 80) := by
      rw [lookupJ_append_none o DEFAULT_CONFIG _ h]; rfl
    refine ⟨{ alarmMp3 := (lookupJ (o ++ DEFAULT_CONFIG) "ALARM_MP3").getD
                (.jstr "sounds/alarm.mp3"),
              soundDevice := (lookupJ (o ++ DEFAULT_CONFIG) "SOUND_DEVICE").getD
                .jnull,
              volumePercent := 80,
              simulateGpio := pyBool ((lookupJ (o ++ DEFAULT_CONFIG)
                "SIMULATE_GPIO").getD (.jbool true)) }, ?_, rfl⟩
    simp only [startup, load_config, hv, Option.getD_some, pyInt]
  · intro v hv hpe
    have hv2 : lookupJ (o ++ DEFAULT_CONFIG) "VOLUME_PERCENT" = some v :=
      lookupJ_append_some o DEFAULT_CONFIG _ v hv
    simp only [startup, load_config, hv2, Option.getD_some, hpe]

/-- Witness for C9 amended: an object without `VOLUME_PERCENT` starts up
with the default volume 80, and an object with a null `VOLUME_PERCENT`
aborts. -/
theorem C9_config_amended_w :
    (lookupJ [("SOUND_DEVICE", JVal.jnull)] "VOLUME_PERCENT" = none ∧
     ∃ c, startup (.dict [("SOUND_DEVICE", JVal.jnull)]) = .ok c ∧
       c.volumePercent = 80) ∧
    (lookupJ [("VOLUME_PERCENT", JVal.jnull)] "VOLUME_PERCENT"
       = some JVal.jnull ∧
     startup (.dict [("VOLUME_PERCENT", JVal.jnull)]) = .error ()) :=
  ⟨⟨rfl, (C9_config_amended [("SOUND_DEVICE", JVal.jnull)]).2.2.2.1 rfl⟩,
   ⟨rfl, (C9_config_amended [("VOLUME_PERCENT", JVal.jnull)]).2.2.2.2
      JVal.jnull rfl rfl⟩⟩

end Config

namespace Shutdown

/-- Counterexample for C8.  On the signal path `GPIO.cleanup()` runs
twice, not once: `signal_handler` calls it (line 713) and then its
`sys.exit(0)` raises `SystemExit`, which unwinds out of `mainloop` — not
caught by `except KeyboardInterrupt` — into `main`'s `finally`, which
calls it again (line 762). -/
theorem C8_cleanup_cex : ¬ (∀ p, cleanupCalls p = 1) := by
  intro h
  exact absurd (h .osSignal) (by decide)

/-- C8 amended: `GPIO.cleanup()` is invoked at least once on every
shutdown path — exactly once on the UI-exit and KeyboardInterrupt paths,
but twice on the signal path (once in `signal_handler`, once again in
`main`'s `finally` after `sys.exit` unwinds through the main loop). -/
theorem C8_cleanup_amended (p : ShutdownPath) :
    1 ≤ cleanupCalls p ∧
    cleanupCalls p = (if p = .osSignal then 2 else 1) := by
  cases p <;> exact ⟨by decide, by decide⟩

end Shutdown
